import Mathlib

/-!
Shallow embedding of `mastodon/Mastodon.py` (the Mastodon.py client library),
covering the request/authentication/rate-limiting engine: the constructor
(`__init__`, lines 65-107), the pace-mode pre-call sleep and the response
handling loop of `__api_request` (lines 398-490), `log_in` (lines 109-143)
and `__generate_params` (lines 492-510).

Modelling conventions:
- Python floats carrying epoch times and sleep durations are modelled as `ℚ`.
- `time.time()` is passed in explicitly as a `now : ℚ` argument; the several
  calls to `time.time()` inside one straight-line block are identified with a
  single `now` (no time passes between adjacent statements in the model).
- Sleeps are not performed but recorded as a list of slept durations.
- HTTP traffic is scripted: `__api_request`'s retry loop is modelled as a
  function consuming a list of `ScriptedResponse`s, one per loop iteration.
- The rate limit headers `X-RateLimit-Remaining` / `X-RateLimit-Limit` /
  `X-RateLimit-Reset` are modelled as already-parsed fields of the scripted
  response (the source calls `int(...)` / `datetime.strptime(...)` on them).
-/

set_option autoImplicit false

namespace Mastodon

/-- The session attributes set by `__init__` (lines 84-95 of the source),
with the source's field names (`self.api_base_url`, ..., `self.ratelimit_pacefactor`). -/
structure Session where
  api_base_url : String
  client_id : String
  client_secret : Option String
  access_token : Option String
  debug_requests : Bool
  ratelimit_method : String
  ratelimit_limit : Nat
  ratelimit_reset : ℚ
  ratelimit_remaining : Nat
  ratelimit_lastcall : ℚ
  ratelimit_pacefactor : ℚ
deriving DecidableEq

/-- Outcome of the pace-mode pre-call block of `__api_request` (lines 413-424).
`ok sleeps`: the recorded sleeps were performed and control reaches the request.
`unboundLocal sleeps`: the recorded sleeps were performed and then evaluation of
`remaining_wait > 0` (line 423) raised `UnboundLocalError`, because the branch
taken (line 414, `ratelimit_remaining == 0`) never assigns `remaining_wait`. -/
inductive PaceResult where
  | ok (sleeps : List ℚ)
  | unboundLocal (sleeps : List ℚ)
deriving DecidableEq

/-- Lines 413-424 of `__api_request`: the pace-mode rate limiting performed
before the HTTP request is issued. Faithful to the source's indentation: the
`if remaining_wait > 0` test at line 423 sits inside the `pace` block but
outside the if/else at lines 414-421, so in the `ratelimit_remaining == 0`
branch the local `remaining_wait` is unbound when line 423 runs. -/
def api_request_pace (s : Session) (now : ℚ) : PaceResult :=
  if s.ratelimit_method = "pace" then
    if s.ratelimit_remaining = 0 then
      let to_next := s.ratelimit_reset - now
      let sleeps := if to_next > 0 then [to_next] else []
      PaceResult.unboundLocal sleeps
    else
      let time_waited := now - s.ratelimit_lastcall
      let time_wait := (s.ratelimit_reset - now) / (s.ratelimit_remaining : ℚ)
      let remaining_wait := time_wait - time_waited
      if remaining_wait > 0 then
        PaceResult.ok [remaining_wait * s.ratelimit_pacefactor]
      else
        PaceResult.ok []
  else
    PaceResult.ok []

/-- Total time slept by a recorded list of sleeps. -/
def sumSleeps (l : List ℚ) : ℚ := l.foldr (· + ·) 0

/-- One HTTP response as consumed by one iteration of `__api_request`'s retry
loop. `now` is the value of `time.time()` while this response is handled.
`hRemaining`, `hLimit`, `hReset` model the parsed rate limit headers
(lines 475-477); `body` is the decoded JSON object, or `none` when the body is
not decodable as JSON (modelled as a flat string-to-string object, enough for
the `response["error"] == "Throttled"` test at line 480). -/
structure ScriptedResponse where
  now : ℚ
  status : Nat
  hRemaining : Nat
  hLimit : Nat
  hReset : ℚ
  body : Option (List (String × String))
deriving DecidableEq

/-- Result of `__api_request`'s response handling loop (lines 437-490). -/
inductive ApiOutcome where
  | success (data : List (String × String)) (s : Session) (sleeps : List ℚ)
  | apiError (msg : String)
  | ratelimitError (msg : String)
  | scriptExhausted
deriving DecidableEq

/-- Lines 437-490 of `__api_request`: the `while not request_complete` loop.
Each iteration consumes one scripted response. 404 and 500 raise
`MastodonAPIError` (lines 463-467); an undecodable body raises
`MastodonAPIError` with the status code (lines 469-472); otherwise the rate
limit fields of the session are refreshed from the response (lines 475-478)
and the throttle payload is inspected (lines 480-488): under `throw` a
`MastodonRatelimitError` is raised; under `wait` or `pace` the loop sleeps
until the refreshed reset time (when in the future) and restarts; any other
method falls through and returns the decoded body. -/
def api_request_loop (s : Session) (sleeps : List ℚ) :
    List ScriptedResponse → ApiOutcome
  | [] => ApiOutcome.scriptExhausted
  | r :: rest =>
    if r.status = 404 then
      ApiOutcome.apiError "Endpoint not found."
    else if r.status = 500 then
      ApiOutcome.apiError "General API problem."
    else
      match r.body with
      | none =>
          ApiOutcome.apiError
            ("Could not parse response as JSON, respose code was " ++ toString r.status)
      | some data =>
          let s' : Session :=
            { s with
              ratelimit_remaining := r.hRemaining
              ratelimit_limit := r.hLimit
              ratelimit_reset := r.hReset
              ratelimit_lastcall := r.now }
          if data.lookup "error" = some "Throttled" then
            if s'.ratelimit_method = "throw" then
              ApiOutcome.ratelimitError "Hit rate limit."
            else if s'.ratelimit_method = "wait" ∨ s'.ratelimit_method = "pace" then
              let to_next := s'.ratelimit_reset - r.now
              api_request_loop s' (sleeps ++ if to_next > 0 then [to_next] else []) rest
            else
              ApiOutcome.success data s' sleeps
          else
            ApiOutcome.success data s' sleeps

/-- A value in the named-parameters dictionary fed to `__generate_params`:
Python `None`, a scalar (string-like), or a list. -/
inductive PValue where
  | none
  | str (s : String)
  | list (xs : List String)
deriving DecidableEq

/-- Python `isinstance(value, list)` (line 506). -/
def isListVal : PValue → Bool
  | PValue.list _ => true
  | _ => false

/-- The body of `__generate_params` after the `del params['self']` succeeded
(lines 498-510): drop entries whose value is `None` or whose key is excluded,
then move every list-valued entry to the end of the dict under the key
`key + "[]"` (Python dict insertion order: a fresh key is appended). -/
def generate_params_core (params : List (String × PValue)) (exclude : List String) :
    List (String × PValue) :=
  let noSelf := params.filter (fun kv => decide (kv.1 ≠ "self"))
  let kept := noSelf.filter (fun kv => decide (¬(kv.2 = PValue.none ∨ kv.1 ∈ exclude)))
  kept.filter (fun kv => !isListVal kv.2) ++
    (kept.filter (fun kv => isListVal kv.2)).map (fun kv => (kv.1 ++ "[]", kv.2))

/-- Model of `__generate_params` (lines 492-510). The dict is an insertion-ordered
association list, as in Python 3. `del params['self']` (line 498) raises
`KeyError` when no `self` key is present, modelled as `none`. -/
def generate_params (params : List (String × PValue)) (exclude : List String) :
    Option (List (String × PValue)) :=
  if "self" ∈ params.map Prod.fst then some (generate_params_core params exclude) else none

/-- Python dict assignment `d[k] = v`: overwrite in place when the key exists,
append otherwise. -/
def setParam (l : List (String × PValue)) (k : String) (v : PValue) :
    List (String × PValue) :=
  if k ∈ l.map Prod.fst then
    l.map (fun kv => if kv.1 = k then (k, v) else kv)
  else
    l ++ [(k, v)]

/-- Lexicographic comparison of character streams by code point — the order
Python uses to compare `str` values. -/
def strLeChars : List Char → List Char → Bool
  | [], _ => true
  | _ :: _, [] => false
  | c :: cs, d :: ds =>
    if c.toNat < d.toNat then true
    else if d.toNat < c.toNat then false
    else strLeChars cs ds

/-- Python `x <= y` on strings. -/
def pyStrLe (x y : String) : Bool := strLeChars x.data y.data

/-- Insertion into a sorted list of strings, by code-point lexicographic
order — the order Python's `sorted` uses on `str`. -/
def insertSorted (x : String) : List String → List String
  | [] => [x]
  | y :: ys => if pyStrLe x y then x :: y :: ys else y :: insertSorted x ys

/-- Python `sorted` on a list of strings. -/
def pySorted (l : List String) : List String := l.foldr insertSorted []

/-- Python `" ".join(l)`. -/
def joinSpace (l : List String) : String := String.intercalate " " l

/-- Helper for `pySplitSpace`: the accumulator holds the current piece
reversed. -/
def splitSpaceAux : List Char → List Char → List String
  | [], acc => [String.mk acc.reverse]
  | c :: cs, acc =>
    if c = ' ' then String.mk acc.reverse :: splitSpaceAux cs []
    else splitSpaceAux cs (c :: acc)

/-- Python `s.split(" ")`: split on every single space, keeping empty
pieces. -/
def pySplitSpace (s : String) : List String := splitSpaceAux s.data []

/-- The decoded JSON of a successful `POST /oauth/token`, with the two fields
`log_in` reads (lines 129 and 134). -/
structure TokenResponse where
  access_token : String
  scope : String
deriving DecidableEq

/-- What `log_in` does from the caller's point of view. -/
inductive LoginOutcome where
  | ok (token : String)
  | illegalArgument (msg : String)
  | apiError (msg : String)
deriving DecidableEq

/-- Lines 127-143 of `log_in`, from the `self.__api_request` call on. `tok0`
is `self.access_token` before the call; `apiResult` is `none` when the token
request (or reading `response['access_token']`) fails, in which case the bare
`except` at line 130 masks the cause. Returns the outcome together with the
value of `self.access_token` after the call: note that line 129 assigns
`self.access_token` before the scope comparison at lines 133-137 runs. -/
def log_in (tok0 : Option String) (scopes : List String)
    (apiResult : Option TokenResponse) : LoginOutcome × Option String :=
  match apiResult with
  | Option.none => (LoginOutcome.illegalArgument "Invalid user name, password or scopes.", tok0)
  | Option.some resp =>
      let tok1 := Option.some resp.access_token
      let requested_scopes := joinSpace (pySorted scopes)
      let received_scopes := joinSpace (pySorted (pySplitSpace resp.scope))
      if requested_scopes ≠ received_scopes then
        (LoginOutcome.apiError
          ("Granted scopes \"" ++ received_scopes ++ "\" differ from requested scopes \""
            ++ requested_scopes ++ "\"."), tok1)
      else
        (LoginOutcome.ok resp.access_token, tok1)

/-- Lines 121-125 of `log_in`: the form-parameter dict sent in the
`POST /oauth/token`. `locals()` at line 121 holds `self`, `username`,
`password`, `scopes` and `to_file` (in parameter order); `__generate_params`
is applied with no exclude list, then the four fixed keys are assigned. -/
def log_in_request_params (client_id client_secret : String)
    (username password : String) (scopes : List String) (to_file : Option String) :
    List (String × PValue) :=
  let locs : List (String × PValue) :=
    [("self", PValue.str "self"),
     ("username", PValue.str username),
     ("password", PValue.str password),
     ("scopes", PValue.list scopes),
     ("to_file", match to_file with
       | Option.none => PValue.none
       | Option.some f => PValue.str f)]
  let params := generate_params_core locs []
  setParam (setParam (setParam (setParam params
    "client_id" (PValue.str client_id))
    "client_secret" (PValue.str client_secret))
    "grant_type" (PValue.str "password"))
    "scope" (PValue.str (joinSpace scopes))

/-- Whitespace as stripped by Python's `str.rstrip()` (ASCII part; the inputs
at issue are credential strings). -/
def pyIsSpace (c : Char) : Bool :=
  c = ' ' ∨ c = '\t' ∨ c = '\n' ∨ c = '\r' ∨ c = Char.ofNat 11 ∨ c = Char.ofNat 12

/-- Python `str.rstrip()`: drop all trailing whitespace characters. -/
def rstrip (l : List Char) : List Char :=
  (l.reverse.dropWhile pyIsSpace).reverse

/-- Python file `readline()` on a character stream: the first line including
its newline, paired with the rest of the stream. -/
def readLineSplit : List Char → List Char × List Char
  | [] => ([], [])
  | c :: cs =>
    if c = '\n' then ([c], cs)
    else
      let p := readLineSplit cs
      (c :: p.1, p.2)

/-- Composition `readline().rstrip()` as a `String` function. -/
def readlineRstrip (content : List Char) : String :=
  String.mk (rstrip (readLineSplit content).1)

/-- Lines 105-107 of `__init__`: when `access_token` is set and names an
existing file (whose content is `content`), replace it by the file's first
line, rstripped. -/
def resolveTokenFile (s : Session) (accessTokenFile : Option String) : Session :=
  match s.access_token, accessTokenFile with
  | Option.some _, Option.some content =>
      { s with access_token := Option.some (readlineRstrip content.data) }
  | _, _ => s

/-- Model of `__init__` (lines 65-107). The filesystem is passed in explicitly:
`clientIdFile` is the content of the file named by `client_id` when
`os.path.isfile(client_id)` holds (line 97), else `none`; likewise
`accessTokenFile` for `access_token` (line 105). `now` is `time.time()` at
construction (lines 92/94). Note line 95 assigns the literal `0.9` to
`self.ratelimit_pacefactor`, not the `ratelimit_pacefactor` argument. -/
def init (client_id : String) (client_secret : Option String)
    (access_token : Option String) (api_base_url : String) (debug_requests : Bool)
    (ratelimit_method : String) (ratelimit_pacefactor : ℚ)
    (clientIdFile : Option String) (accessTokenFile : Option String) (now : ℚ) :
    Except String Session :=
  let _ := ratelimit_pacefactor
  let base : Session :=
    { api_base_url := api_base_url
      client_id := client_id
      client_secret := client_secret
      access_token := access_token
      debug_requests := debug_requests
      ratelimit_method := ratelimit_method
      ratelimit_limit := 150
      ratelimit_reset := now
      ratelimit_remaining := 150
      ratelimit_lastcall := now
      ratelimit_pacefactor := 9 / 10 }
  let step1 : Except String Session :=
    match clientIdFile with
    | Option.some content =>
        let p1 := readLineSplit content.data
        let p2 := readLineSplit p1.2
        Except.ok { base with
          client_id := String.mk (rstrip p1.1)
          client_secret := Option.some (String.mk (rstrip p2.1)) }
    | Option.none =>
        match client_secret with
        | Option.none =>
            Except.error "Specified client id directly, but did not supply secret"
        | Option.some _ => Except.ok base
  match step1 with
  | Except.error e => Except.error e
  | Except.ok s => Except.ok (resolveTokenFile s accessTokenFile)

/-- Concrete session in pace mode: remaining 10, reset at 1100, last call at
996, pace factor 0.9 (used as witness input). -/
def paceSession : Session :=
  ⟨"https://mastodon.social", "cid", some "sec", none, false, "pace", 150, 1100, 10, 996, 9 / 10⟩

/-- Concrete session in wait mode (witness input). -/
def waitSession : Session :=
  ⟨"https://mastodon.social", "cid", some "sec", none, false, "wait", 150, 900, 5, 800, 9 / 10⟩

/-- Concrete session in throw mode (witness input). -/
def throwSession : Session :=
  ⟨"https://mastodon.social", "cid", some "sec", none, false, "throw", 150, 900, 5, 800, 9 / 10⟩

/-- Concrete throttled response: 200-class status, throttle payload, reset
declared 100 seconds in the future (witness input). -/
def throttledResponse : ScriptedResponse :=
  ⟨1000, 429, 0, 150, 1100, some [("error", "Throttled")]⟩

/-- Concrete successful response (witness input). -/
def okResponse : ScriptedResponse :=
  ⟨1100, 200, 149, 150, 1400, some [("ok", "yes")]⟩

/-- Concrete 404 response (witness input). -/
def resp404 : ScriptedResponse := ⟨1000, 404, 0, 150, 1100, some []⟩

/-- Concrete 500 response (witness input). -/
def resp500 : ScriptedResponse := ⟨1000, 500, 0, 150, 1100, some []⟩

/-- Concrete response whose body is not decodable as JSON (witness input). -/
def respBad : ScriptedResponse := ⟨1000, 200, 0, 150, 1100, none⟩

/-- Concrete named-argument dict as `status_post` would produce it from
`locals()` (witness input): a scalar, an absent value and a list. -/
def demoParams : List (String × PValue) :=
  [("self", PValue.str "obj"), ("status", PValue.str "hello"),
   ("in_reply_to_id", PValue.none), ("media_ids", PValue.list ["1", "2"])]

/-- Helper: under `wait`, any number of throttled responses followed by one
non-throttled response ends in success with that response's data, sleeping
`reset - now` once per throttled response. -/
theorem wait_loop_replicate
    (r1 r2 : ScriptedResponse) (d1 d2 : List (String × String))
    (h1a : r1.status ≠ 404) (h1b : r1.status ≠ 500) (h1c : r1.body = some d1)
    (h1th : d1.lookup "error" = some "Throttled") (hfut : 0 < r1.hReset - r1.now)
    (h2a : r2.status ≠ 404) (h2b : r2.status ≠ 500) (h2c : r2.body = some d2)
    (h2th : ¬ d2.lookup "error" = some "Throttled") :
    ∀ (n : ℕ) (s : Session), s.ratelimit_method = "wait" → ∀ (acc : List ℚ),
      api_request_loop s acc (List.replicate n r1 ++ [r2]) =
        ApiOutcome.success d2
          { s with ratelimit_remaining := r2.hRemaining, ratelimit_limit := r2.hLimit,
                   ratelimit_reset := r2.hReset, ratelimit_lastcall := r2.now }
          (acc ++ List.replicate n (r1.hReset - r1.now))
  | 0, s, hw, acc => by
      simp only [List.replicate, List.nil_append, api_request_loop, if_neg h2a, if_neg h2b, h2c]
      simp only [h2th, if_neg h2th]
      simp
  | n + 1, s, hw, acc => by
      have ih := wait_loop_replicate r1 r2 d1 d2 h1a h1b h1c h1th hfut h2a h2b h2c h2th n
        { s with ratelimit_remaining := r1.hRemaining, ratelimit_limit := r1.hLimit,
                 ratelimit_reset := r1.hReset, ratelimit_lastcall := r1.now }
        (by simpa using hw)
        (acc ++ [r1.hReset - r1.now])
      rw [hw] at ih
      simp only [List.replicate_succ, List.cons_append, api_request_loop,
        if_neg h1a, if_neg h1b, h1c, h1th, hw]
      simp only [if_pos hfut, List.append_eq]
      rw [if_neg (by decide : ¬ (("wait" : String) = "throw"))]
      simp only [true_or, if_true]
      rw [ih]
      simp [List.append_assoc]

/-- Helper: `readline()` on a stream whose first line is `l1` returns the line
together with its newline. -/
theorem readLineSplit_of_line (l1 rest : List Char) (h : '\n' ∉ l1) :
    readLineSplit (l1 ++ '\n' :: rest) = (l1 ++ ['\n'], rest) := by
  induction l1 with
  | nil => simp [readLineSplit]
  | cons c cs ih =>
      have hc : c ≠ '\n' := fun hcc => h (hcc ▸ List.mem_cons_self c cs)
      have hcs : '\n' ∉ cs := fun hm => h (List.mem_cons_of_mem c hm)
      simp only [List.cons_append, readLineSplit, if_neg hc, List.append_eq, ih hcs]

/-- Helper: `rstrip` absorbs a trailing newline. -/
theorem rstrip_append_newline (l : List Char) : rstrip (l ++ ['\n']) = rstrip l := by
  simp [rstrip, List.dropWhile, pyIsSpace]

/-- C1: in pace mode, when `ratelimit_remaining > 0`, the pre-call sleep
performed by `__api_request` equals
`pace_factor * ((reset_at - now) / remaining - (now - last_call_at))` clamped
to be at least 0 (and the pace block completes without error). -/
theorem pace_sleep_formula (s : Session) (now : ℚ)
    (hm : s.ratelimit_method = "pace") (hrem : s.ratelimit_remaining ≠ 0)
    (hpf : 0 ≤ s.ratelimit_pacefactor) :
    ∃ sl, api_request_pace s now = PaceResult.ok sl ∧
      sumSleeps sl = max 0 (s.ratelimit_pacefactor *
        ((s.ratelimit_reset - now) / (s.ratelimit_remaining : ℚ) -
          (now - s.ratelimit_lastcall))) := by
  unfold api_request_pace
  rw [hm]
  simp only [if_pos rfl, if_neg hrem]
  by_cases h : (0:ℚ) < (s.ratelimit_reset - now) / (s.ratelimit_remaining : ℚ) -
      (now - s.ratelimit_lastcall)
  · rw [if_pos h]
    refine ⟨_, rfl, ?_⟩
    simp only [sumSleeps, List.foldr, add_zero]
    rw [mul_comm, max_eq_right (mul_nonneg hpf h.le)]
  · rw [if_neg h]
    refine ⟨[], rfl, ?_⟩
    simp only [sumSleeps, List.foldr]
    have hle : s.ratelimit_pacefactor *
        ((s.ratelimit_reset - now) / (s.ratelimit_remaining : ℚ) -
          (now - s.ratelimit_lastcall)) ≤ 0 := by
      nlinarith [not_lt.mp h, hpf]
    rw [max_eq_left hle]

/-- C1 witness: `remaining = 10`, `reset_at = now + 100`, `pace_factor = 0.9`,
4 seconds elapsed since the last call. -/
theorem pace_sleep_formula_witness :
    paceSession.ratelimit_method = "pace" ∧ paceSession.ratelimit_remaining ≠ 0 ∧
    (0:ℚ) ≤ paceSession.ratelimit_pacefactor ∧
    ∃ sl, api_request_pace paceSession 1000 = PaceResult.ok sl ∧
      sumSleeps sl = max 0 (paceSession.ratelimit_pacefactor *
        ((paceSession.ratelimit_reset - 1000) / (paceSession.ratelimit_remaining : ℚ) -
          (1000 - paceSession.ratelimit_lastcall))) :=
  ⟨rfl, by decide, by norm_num [paceSession],
   pace_sleep_formula paceSession 1000 rfl (by decide) (by norm_num [paceSession])⟩

/-- C2: in pace mode with `ratelimit_remaining = 0` and the reset 100 seconds
in the future, the code sleeps the 100 seconds until `reset_at` but then hits
`UnboundLocalError` at line 423 (the misindented `if remaining_wait > 0`)
instead of proceeding to issue the HTTP request. -/
theorem pace_zero_remaining_unbound_local :
    api_request_pace
      ⟨"https://mastodon.social", "cid", some "sec", none, false, "pace",
        150, 1100, 0, 996, 9 / 10⟩ 1000 = PaceResult.unboundLocal [100] := by
  simp only [api_request_pace]
  norm_num

/-- C3: the constructor ignores the `ratelimit_pacefactor` argument: called
with pace factor `1/2`, the session's pace factor is the hardcoded `0.9`
(line 95 assigns the literal `0.9`). -/
theorem init_pacefactor_hardcoded :
    init "cid" (some "sec") none "https://mastodon.social" false "pace" (1 / 2) none none 0 =
      Except.ok
        ⟨"https://mastodon.social", "cid", some "sec", none, false, "pace",
          150, 0, 150, 0, 9 / 10⟩
    ∧ ((9:ℚ) / 10) ≠ 1 / 2 :=
  ⟨rfl, by norm_num⟩

/-- C4: under `wait`, a throttled response followed by a non-throttled one
makes the call sleep exactly until the declared reset time, replay the
request, and return the second response's decoded data; and for every retry
count `n`, `n` consecutive throttled responses are all retried (no bound). -/
theorem wait_throttle_retry_returns_second (s : Session)
    (hw : s.ratelimit_method = "wait")
    (r1 r2 : ScriptedResponse) (d1 d2 : List (String × String))
    (h1a : r1.status ≠ 404) (h1b : r1.status ≠ 500) (h1c : r1.body = some d1)
    (h1th : d1.lookup "error" = some "Throttled") (hfut : 0 < r1.hReset - r1.now)
    (h2a : r2.status ≠ 404) (h2b : r2.status ≠ 500) (h2c : r2.body = some d2)
    (h2th : ¬ d2.lookup "error" = some "Throttled") :
    api_request_loop s [] [r1, r2] =
      ApiOutcome.success d2
        { s with ratelimit_remaining := r2.hRemaining, ratelimit_limit := r2.hLimit,
                 ratelimit_reset := r2.hReset, ratelimit_lastcall := r2.now }
        [r1.hReset - r1.now]
    ∧ ∀ n : ℕ, api_request_loop s [] (List.replicate n r1 ++ [r2]) =
      ApiOutcome.success d2
        { s with ratelimit_remaining := r2.hRemaining, ratelimit_limit := r2.hLimit,
                 ratelimit_reset := r2.hReset, ratelimit_lastcall := r2.now }
        (List.replicate n (r1.hReset - r1.now)) := by
  have hall := wait_loop_replicate r1 r2 d1 d2 h1a h1b h1c h1th hfut h2a h2b h2c h2th
  constructor
  · simpa using hall 1 s hw []
  · intro n
    simpa using hall n s hw []

/-- C4 witness: a concrete throttled response (reset 100 seconds ahead)
followed by a concrete success under a wait-mode session. -/
theorem wait_throttle_retry_returns_second_witness :
    waitSession.ratelimit_method = "wait" ∧
    throttledResponse.status ≠ 404 ∧ throttledResponse.status ≠ 500 ∧
    throttledResponse.body = some [("error", "Throttled")] ∧
    List.lookup "error" [("error", "Throttled")] = some "Throttled" ∧
    (0:ℚ) < throttledResponse.hReset - throttledResponse.now ∧
    okResponse.status ≠ 404 ∧ okResponse.status ≠ 500 ∧
    okResponse.body = some [("ok", "yes")] ∧
    ¬ List.lookup "error" [("ok", "yes")] = some "Throttled" ∧
    api_request_loop waitSession [] [throttledResponse, okResponse] =
      ApiOutcome.success [("ok", "yes")]
        { waitSession with
            ratelimit_remaining := okResponse.hRemaining,
            ratelimit_limit := okResponse.hLimit,
            ratelimit_reset := okResponse.hReset,
            ratelimit_lastcall := okResponse.now }
        [throttledResponse.hReset - throttledResponse.now] :=
  ⟨rfl, by decide, by decide, rfl, rfl, by norm_num [throttledResponse],
   by decide, by decide, rfl, by decide,
   (wait_throttle_retry_returns_second waitSession rfl throttledResponse okResponse
     [("error", "Throttled")] [("ok", "yes")] (by decide) (by decide) rfl rfl
     (by norm_num [throttledResponse]) (by decide) (by decide) rfl (by decide)).1⟩

/-- C5: under `throw`, a throttled response makes the loop raise
`MastodonRatelimitError("Hit rate limit.")` immediately, whatever responses
would have followed — so exactly one raise and no retry. -/
theorem throw_throttle_raises_once (s : Session) (hm : s.ratelimit_method = "throw")
    (r : ScriptedResponse) (rest : List ScriptedResponse) (d : List (String × String))
    (ha : r.status ≠ 404) (hb : r.status ≠ 500) (hc : r.body = some d)
    (hth : d.lookup "error" = some "Throttled") :
    api_request_loop s [] (r :: rest) = ApiOutcome.ratelimitError "Hit rate limit." := by
  simp only [api_request_loop, if_neg ha, if_neg hb, hc, hth, hm]
  simp

/-- C5 witness: a concrete throttled response under a throw-mode session,
with a success response queued behind it that is never consumed. -/
theorem throw_throttle_raises_once_witness :
    throwSession.ratelimit_method = "throw" ∧
    throttledResponse.status ≠ 404 ∧ throttledResponse.status ≠ 500 ∧
    throttledResponse.body = some [("error", "Throttled")] ∧
    List.lookup "error" [("error", "Throttled")] = some "Throttled" ∧
    api_request_loop throwSession [] [throttledResponse, okResponse] =
      ApiOutcome.ratelimitError "Hit rate limit." :=
  ⟨rfl, by decide, by decide, rfl, rfl,
   throw_throttle_raises_once throwSession rfl throttledResponse [okResponse]
     [("error", "Throttled")] (by decide) (by decide) rfl rfl⟩

/-- C6 counterexample: requesting scopes `["read","write"]` and being granted
`"read"` raises the Api error naming both sets, but the session's access
token has been changed from `none` to the granted token — line 129 assigns
`self.access_token` before the scope comparison, so the token is NOT left
unchanged on mismatch as the claim states. -/
theorem log_in_mismatch_token_counterexample :
    log_in none ["read", "write"] (some ⟨"tok", "read"⟩) =
      (LoginOutcome.apiError
        "Granted scopes \"read\" differ from requested scopes \"read write\".",
       some "tok")
    ∧ (some "tok" : Option String) ≠ none := by
  exact ⟨by decide, by decide⟩

/-- C6 amended: when the sorted requested scope set differs from the sorted
granted scope set, `log_in` raises an Api error naming both sets — but the
session's access token has already been set to the granted token (it is set
whenever the token request succeeds, before the scope check). -/
theorem log_in_mismatch_amended (tok0 : Option String) (scopes : List String)
    (resp : TokenResponse)
    (h : joinSpace (pySorted scopes) ≠ joinSpace (pySorted (pySplitSpace resp.scope))) :
    log_in tok0 scopes (some resp) =
      (LoginOutcome.apiError
        ("Granted scopes \"" ++ joinSpace (pySorted (pySplitSpace resp.scope)) ++
          "\" differ from requested scopes \"" ++ joinSpace (pySorted scopes) ++ "\"."),
       some resp.access_token) := by
  simp only [log_in]
  rw [if_pos h]

/-- C6 witness: the `["read","write"]` versus `"read"` instance. -/
theorem log_in_mismatch_amended_witness :
    joinSpace (pySorted ["read", "write"]) ≠ joinSpace (pySorted (pySplitSpace "read")) ∧
    log_in none ["read", "write"] (some ⟨"tok", "read"⟩) =
      (LoginOutcome.apiError
        ("Granted scopes \"" ++ joinSpace (pySorted (pySplitSpace "read")) ++
          "\" differ from requested scopes \"" ++
          joinSpace (pySorted ["read", "write"]) ++ "\"."),
       some "tok") :=
  ⟨by decide, log_in_mismatch_amended none ["read", "write"] ⟨"tok", "read"⟩ (by decide)⟩

/-- C7 counterexample: the messages the code produces end in a period and the
non-JSON message reads `respose code was`, so they differ from the claim's
`Api("Endpoint not found")`, `Api("General API problem")` and
`Api("Could not parse response as JSON, status was <code>")`. -/
theorem http_error_message_counterexample :
    api_request_loop waitSession [] [resp404] = ApiOutcome.apiError "Endpoint not found."
    ∧ ("Endpoint not found." : String) ≠ "Endpoint not found"
    ∧ api_request_loop waitSession [] [resp500] = ApiOutcome.apiError "General API problem."
    ∧ ("General API problem." : String) ≠ "General API problem"
    ∧ api_request_loop waitSession [] [respBad] =
        ApiOutcome.apiError "Could not parse response as JSON, respose code was 200"
    ∧ ("Could not parse response as JSON, respose code was 200" : String) ≠
        "Could not parse response as JSON, status was 200" := by
  exact ⟨rfl, by decide, rfl, by decide, rfl, by decide⟩

/-- C7 amended: an HTTP 404 fails with `MastodonAPIError("Endpoint not
found.")`, an HTTP 500 with `MastodonAPIError("General API problem.")`, and an
undecodable body with `MastodonAPIError("Could not parse response as JSON,
respose code was <code>")` where `<code>` is the HTTP status code. -/
theorem http_error_messages (s : Session) (acc : List ℚ) (r : ScriptedResponse)
    (rest : List ScriptedResponse) :
    (r.status = 404 →
      api_request_loop s acc (r :: rest) = ApiOutcome.apiError "Endpoint not found.")
    ∧ (r.status ≠ 404 → r.status = 500 →
      api_request_loop s acc (r :: rest) = ApiOutcome.apiError "General API problem.")
    ∧ (r.status ≠ 404 → r.status ≠ 500 → r.body = none →
      api_request_loop s acc (r :: rest) =
        ApiOutcome.apiError
          ("Could not parse response as JSON, respose code was " ++ toString r.status)) := by
  refine ⟨fun h4 => ?_, fun h4 h5 => ?_, fun h4 h5 hb => ?_⟩
  · simp only [api_request_loop, if_pos h4]
  · simp only [api_request_loop, if_neg h4, if_pos h5]
  · simp only [api_request_loop, if_neg h4, if_neg h5, hb]

/-- C7 witness: the three concrete failing responses. -/
theorem http_error_messages_witness :
    api_request_loop waitSession [] [resp404] = ApiOutcome.apiError "Endpoint not found."
    ∧ api_request_loop waitSession [] [resp500] = ApiOutcome.apiError "General API problem."
    ∧ api_request_loop waitSession [] [respBad] =
        ApiOutcome.apiError
          ("Could not parse response as JSON, respose code was " ++ toString respBad.status) :=
  ⟨(http_error_messages waitSession [] resp404 []).1 rfl,
   (http_error_messages waitSession [] resp500 []).2.1 (by decide) rfl,
   (http_error_messages waitSession [] respBad []).2.2 (by decide) (by decide) rfl⟩

/-- C8: the output of `__generate_params` is exactly the input dict with the
`self` key removed, `None`-valued and excluded keys removed, and each
list-valued entry re-keyed as `name + "[]"` with its value preserved: a pair
is in the output iff it survives the filters directly (non-list) or is the
renaming of a surviving list-valued input pair. In particular no emitted
value is `None` and the output key set is a subset of the input names up to
the `[]` substitution. -/
theorem generate_params_exact (params : List (String × PValue)) (exclude : List String)
    (out : List (String × PValue)) (h : generate_params params exclude = some out)
    (k : String) (v : PValue) :
    (k, v) ∈ out ↔
      (((k, v) ∈ params ∧ k ≠ "self" ∧ v ≠ PValue.none ∧ k ∉ exclude ∧ isListVal v = false) ∨
       (∃ k0, k = k0 ++ "[]" ∧ (k0, v) ∈ params ∧ k0 ≠ "self" ∧ v ≠ PValue.none ∧
         k0 ∉ exclude ∧ isListVal v = true)) := by
  have hout : out = generate_params_core params exclude := by
    unfold generate_params at h
    split at h
    · exact (Option.some.injEq _ _ ▸ h.symm)
    · exact absurd h (by simp)
  subst hout
  unfold generate_params_core
  simp only [List.mem_append, List.mem_filter, List.mem_map, decide_eq_true_eq,
    Bool.not_eq_true, not_or, Bool.not_eq_true']
  constructor
  · rintro (⟨⟨⟨hmem, hself⟩, hn, he⟩, hlist⟩ | ⟨⟨a, b⟩, ⟨⟨⟨hmem, hself⟩, hn, he⟩, hlist⟩, heq⟩)
    · exact Or.inl ⟨hmem, hself, hn, he, hlist⟩
    · cases heq
      exact Or.inr ⟨a, rfl, hmem, hself, hn, he, hlist⟩
  · rintro (⟨hmem, hself, hnone, hexc, hlist⟩ | ⟨k0, rfl, hmem, hself, hnone, hexc, hlist⟩)
    · exact Or.inl ⟨⟨⟨hmem, hself⟩, hnone, hexc⟩, hlist⟩
    · exact Or.inr ⟨(k0, v), ⟨⟨⟨hmem, hself⟩, hnone, hexc⟩, hlist⟩, rfl⟩

/-- C8 witness: on the demo dict (`self`, a scalar, a `None` value, a list),
with no exclude list, the renamed list pair `("media_ids[]", ["1","2"])` is in
the output and the characterization holds for it. -/
theorem generate_params_exact_witness :
    generate_params demoParams [] =
      some [("status", PValue.str "hello"), ("media_ids[]", PValue.list ["1", "2"])]
    ∧ (("media_ids[]", PValue.list ["1", "2"]) ∈
        [("status", PValue.str "hello"), ("media_ids[]", PValue.list ["1", "2"])] ↔
      ((("media_ids[]", PValue.list ["1", "2"]) ∈ demoParams ∧ "media_ids[]" ≠ "self" ∧
          PValue.list ["1", "2"] ≠ PValue.none ∧ "media_ids[]" ∉ ([] : List String) ∧
          isListVal (PValue.list ["1", "2"]) = false) ∨
       (∃ k0, "media_ids[]" = k0 ++ "[]" ∧ (k0, PValue.list ["1", "2"]) ∈ demoParams ∧
          k0 ≠ "self" ∧ PValue.list ["1", "2"] ≠ PValue.none ∧
          k0 ∉ ([] : List String) ∧ isListVal (PValue.list ["1", "2"]) = true))) :=
  ⟨by decide,
   generate_params_exact demoParams []
     [("status", PValue.str "hello"), ("media_ids[]", PValue.list ["1", "2"])]
     (by decide) "media_ids[]" (PValue.list ["1", "2"])⟩

/-- C9 counterexample: with a credentials file containing `"abc \nxyz\n"`
(first line ending in a space before the newline), the code resolves
`client_id = "abc"` — `readline().rstrip()` strips ALL trailing whitespace —
whereas stripping only the trailing newline, as the claim states, would give
`"abc "`. -/
theorem init_rstrip_counterexample :
    init "creds" (some "suppliedsecret") none "https://mastodon.social" false "wait"
        (9 / 10) (some "abc \nxyz\n") none 0 =
      Except.ok
        ⟨"https://mastodon.social", "abc", some "xyz", none, false, "wait",
          150, 0, 150, 0, 9 / 10⟩
    ∧ ("abc" : String) ≠ "abc " := by
  exact ⟨rfl, by decide⟩

/-- C9 amended: if `client_id` names an existing file whose first two lines
are `l1` and `l2`, the session resolves `client_id` and `client_secret` to
those lines stripped of trailing whitespace (Python `rstrip`, not just the
newline), ignoring any explicitly supplied `client_secret` (which does not
occur in the result); the file content `"abc\nxyz\n"` gives `abc` / `xyz`. -/
theorem init_file_credentials_amended (client_id : String) (client_secret : Option String)
    (api_base_url : String) (debug_requests : Bool) (ratelimit_method : String)
    (ratelimit_pacefactor now : ℚ) (content : String) (l1 l2 : List Char)
    (h1 : '\n' ∉ l1) (h2 : '\n' ∉ l2)
    (hc : content.data = l1 ++ '\n' :: (l2 ++ ['\n'])) :
    init client_id client_secret none api_base_url debug_requests ratelimit_method
        ratelimit_pacefactor (some content) none now =
      Except.ok
        { api_base_url := api_base_url
          client_id := String.mk (rstrip l1)
          client_secret := some (String.mk (rstrip l2))
          access_token := none
          debug_requests := debug_requests
          ratelimit_method := ratelimit_method
          ratelimit_limit := 150
          ratelimit_reset := now
          ratelimit_remaining := 150
          ratelimit_lastcall := now
          ratelimit_pacefactor := 9 / 10 } := by
  have h2' : readLineSplit (l2 ++ ['\n']) = (l2 ++ ['\n'], []) := by
    simpa using readLineSplit_of_line l2 [] h2
  simp only [init]
  rw [hc, readLineSplit_of_line _ _ h1]
  simp only [h2', rstrip_append_newline, resolveTokenFile]

/-- C9 witness: the file content `"abc\nxyz\n"` with an explicitly supplied
secret that is ignored. -/
theorem init_file_credentials_amended_witness :
    ('\n' ∉ ("abc".data)) ∧ ('\n' ∉ ("xyz".data)) ∧
    ("abc\nxyz\n".data = "abc".data ++ '\n' :: ("xyz".data ++ ['\n'])) ∧
    init "creds" (some "suppliedsecret") none "https://mastodon.social" false "wait"
        (9 / 10) (some "abc\nxyz\n") none 0 =
      Except.ok
        { api_base_url := "https://mastodon.social"
          client_id := String.mk (rstrip "abc".data)
          client_secret := some (String.mk (rstrip "xyz".data))
          access_token := none
          debug_requests := false
          ratelimit_method := "wait"
          ratelimit_limit := 150
          ratelimit_reset := 0
          ratelimit_remaining := 150
          ratelimit_lastcall := 0
          ratelimit_pacefactor := 9 / 10 } :=
  ⟨by decide, by decide, by decide,
   init_file_credentials_amended "creds" (some "suppliedsecret") "https://mastodon.social"
     false "wait" (9 / 10) 0 "abc\nxyz\n" "abc".data "xyz".data
     (by decide) (by decide) (by decide)⟩

/-- C10: when `to_file` is not `None`, the form-parameter dict `log_in` sends
in the `POST /oauth/token` contains the key `to_file` mapped to the file
path — the local persistence path is transmitted to the server, because
`locals()` at line 121 contains `to_file` and `__generate_params` keeps every
non-`None`, non-excluded entry. -/
theorem log_in_sends_to_file (client_id client_secret username password : String)
    (scopes : List String) (to_file : Option String) (f : String) (h : to_file = some f) :
    ("to_file", PValue.str f) ∈
      log_in_request_params client_id client_secret username password scopes to_file := by
  subst h
  simp [log_in_request_params, generate_params_core, setParam, isListVal]

/-- C10 witness: a concrete login with `to_file = "token.secret"`. -/
theorem log_in_sends_to_file_witness :
    (some "token.secret" : Option String) = some "token.secret" ∧
    ("to_file", PValue.str "token.secret") ∈
      log_in_request_params "ci" "cs" "user" "pw" ["read", "write"] (some "token.secret") :=
  ⟨rfl,
   log_in_sends_to_file "ci" "cs" "user" "pw" ["read", "write"] (some "token.secret")
     "token.secret" rfl⟩

end Mastodon
